import Mathlib

/-!
Verification development for the invoice-agent-service authentication and
credential-custody subsystem.

This file gives a shallow embedding, in Lean, of the Python code under
`app/core/auth.py`, `app/core/config.py`, `app/services/auth_service.py`,
`app/db/repositories/...` and `app/db/models.py`, and proves (or refutes)
the behavioural properties stated in the specification.

Modelling conventions:
- Python byte strings are `List Nat`; Python text strings are `String`.
- Timestamps are `Int` (seconds); the wall clock is an explicit `now`
  argument threaded to each operation that reads it.
- Database sessions are explicit state values (lists of rows plus id
  counters); a commit is a pure state update.
- Fernet authenticated encryption is modelled symbolically: a ciphertext
  remembers the key it was produced under, and decryption succeeds exactly
  when attempted under that same key (authenticated-encryption ideal
  model).  SHA-256 key hashing is modelled symbolically by the `hashed`
  constructor of `FernetKey` (collision-freeness of the digest becomes
  constructor injectivity).
- Python exceptions become `Except` / explicit error constructors; a
  `try/except` block becomes a `match` on the inner result.
-/

/-! ## Credential Cipher (app/services/auth_service.py lines 24-55)

`AuthService.__init__` stores `settings.ENCRYPTION_KEY.encode()` as
`self.encryption_key`.  `_create_cipher` raises `ValueError` when that byte
string is empty, otherwise derives a Fernet key: the secret is used
directly when it is exactly 32 bytes, otherwise its SHA-256 digest is
used; either way the result is urlsafe-base64 encoded and handed to
`Fernet`.  `_encrypt_token` and `_decrypt_token` each construct a fresh
cipher via `_create_cipher` and then call Fernet encrypt / decrypt. -/

/-- Symbolic Fernet key: either the 32-byte secret used directly, or the
SHA-256 digest of a secret of any other length.  Base64 transport encoding
is injective and therefore folded into the constructors. -/
inductive FernetKey where
  | direct (secret : List Nat)
  | hashed (secret : List Nat)
deriving DecidableEq, Repr

/-- Errors of the cipher layer.  `configurationError` is the
`ValueError("Encryption key not configured")` raised by `_create_cipher`;
`decryptionError` is Fernet's `InvalidToken` on authentication failure. -/
inductive CipherError where
  | configurationError
  | decryptionError
deriving DecidableEq, Repr

/-- Symbolic Fernet ciphertext: records the key it was encrypted under and
the plaintext, the ideal model of authenticated symmetric encryption. -/
structure Ciphertext where
  key : FernetKey
  plain : String
deriving DecidableEq, Repr

/-- `AuthService._create_cipher`: fails when the configured secret is
empty; otherwise derives the Fernet key (direct use at exactly 32 bytes,
SHA-256 digest otherwise). -/
def createCipher (encryptionKey : List Nat) : Except CipherError FernetKey :=
  if encryptionKey = [] then
    Except.error CipherError.configurationError
  else if encryptionKey.length ≠ 32 then
    Except.ok (FernetKey.hashed encryptionKey)
  else
    Except.ok (FernetKey.direct encryptionKey)

/-- Fernet encryption in the ideal model: tag the plaintext with the key. -/
def fernetEncrypt (k : FernetKey) (msg : String) : Ciphertext :=
  { key := k, plain := msg }

/-- Fernet decryption in the ideal model: succeeds exactly under the key
the ciphertext was produced with. -/
def fernetDecrypt (k : FernetKey) (c : Ciphertext) : Option String :=
  if c.key = k then some c.plain else none

/-- `AuthService._encrypt_token`: constructs a fresh cipher from the
configured secret and encrypts. -/
def encryptToken (encryptionKey : List Nat) (token : String) :
    Except CipherError Ciphertext :=
  match createCipher encryptionKey with
  | Except.error e => Except.error e
  | Except.ok k => Except.ok (fernetEncrypt k token)

/-- `AuthService._decrypt_token`: constructs a fresh cipher from the
configured secret and decrypts; Fernet authentication failure surfaces as
`decryptionError`. -/
def decryptToken (encryptionKey : List Nat) (c : Ciphertext) :
    Except CipherError String :=
  match createCipher encryptionKey with
  | Except.error e => Except.error e
  | Except.ok k =>
      match fernetDecrypt k c with
      | some s => Except.ok s
      | none => Except.error CipherError.decryptionError

/-! ## KeyRing Cache (app/core/auth.py lines 32-73)

Module-level state `jwk_keys : Dict` and `last_jwk_fetch : float` with
`JWK_CACHE_DURATION = 3600`.  `get_jwk_keys` returns the cached mapping
when it is non-empty and younger than the TTL; otherwise it fetches the
JWKS document, rebuilds the mapping keyed by kid, stamps the fetch time,
and returns it; every fetch exception (`ConnectionError`, `HTTPError`,
anything else) is caught and an empty mapping is returned with the cached
state left untouched.  The function never lets an exception escape: the
embedding is a total function from (state, clock, fetch outcome) to
(returned mapping, new state). -/

/-- TTL of the JWK cache, seconds (`JWK_CACHE_DURATION`). -/
def JWK_CACHE_DURATION : Nat := 3600

/-- Module-level cache state: `jwk_keys` (kid-keyed association list) and
`last_jwk_fetch` (seconds). -/
structure JwkCacheState where
  jwk_keys : List (String × String)
  last_jwk_fetch : Nat
deriving DecidableEq, Repr

/-- One key object of the JWKS document: its kid and its key material. -/
structure JwkEntry where
  kid : String
  material : String
deriving DecidableEq, Repr

/-- Outcome of the outbound JWKS fetch, as discriminated by the except
clauses of `get_jwk_keys`: success with a key list, connection error, HTTP
error, or any other exception (e.g. malformed JSON payload). -/
inductive FetchOutcome where
  | ok (keys : List JwkEntry)
  | connectionError
  | httpError
  | otherError
deriving DecidableEq, Repr

/-- Whether the fetch outcome is one of the three failure cases. -/
def FetchOutcome.isFailure : FetchOutcome → Bool
  | FetchOutcome.ok _ => false
  | _ => true

/-- Insert-or-overwrite into an association list, the effect of a Python
dict assignment for one key. -/
def insertKey (m : List (String × String)) (k v : String) :
    List (String × String) :=
  if m.any (fun p => p.1 = k) then
    m.map (fun p => if p.1 = k then (k, v) else p)
  else
    m ++ [(k, v)]

/-- The dict comprehension of `get_jwk_keys`, mapping each fetched key to
its kid (a later duplicate kid overwrites an earlier one). -/
def buildKeyMap (ks : List JwkEntry) : List (String × String) :=
  ks.foldl (fun m e => insertKey m e.kid e.material) []

/-- Freshness condition of the cache hit: the cached dict is non-empty
(Python truthiness of `jwk_keys`) and younger than the TTL.  Natural
subtraction truncates at zero exactly where Python's signed difference is
negative, and both sides then take the cache-hit branch. -/
def cacheIsFresh (st : JwkCacheState) (now : Nat) : Prop :=
  st.jwk_keys ≠ [] ∧ now - st.last_jwk_fetch < JWK_CACHE_DURATION

instance (st : JwkCacheState) (now : Nat) : Decidable (cacheIsFresh st now) := by
  unfold cacheIsFresh
  infer_instance

/-- `get_jwk_keys`: returns the cached mapping on a fresh hit; otherwise
performs the fetch, replacing the cache wholesale on success and returning
an empty mapping (cache untouched) on any failure. -/
def getJwkKeys (st : JwkCacheState) (now : Nat) (fetch : FetchOutcome) :
    List (String × String) × JwkCacheState :=
  if cacheIsFresh st now then
    (st.jwk_keys, st)
  else
    match fetch with
    | FetchOutcome.ok ks =>
        let m := buildKeyMap ks
        (m, { jwk_keys := m, last_jwk_fetch := now })
    | _ => ([], st)

/-! ## Token Verifier (app/core/auth.py lines 76-152)

`validate_token` rejects the empty token before its try block; inside the
try block it decodes the header, requires a kid, calls `get_jwk_keys`,
rejects an empty key set with an `HTTPException(503)` and an unknown kid
with an `HTTPException(401)`, and then runs `jwt.decode` with RS256, the
configured audience and expiry verification.  The except clauses translate
`ExpiredSignatureError` and `InvalidTokenError` to 401 responses — but the
final clause `except Exception` also catches the `HTTPException`s raised
inside the try block and replaces them with a 500 "Authentication error".
The embedding keeps the two layers separate: `validateTokenTry` is the try
block body (errors are raised Python exceptions), `validateToken` is the
surrounding dispatch. -/

/-- Relevant configuration values from `Settings` (app/core/config.py). -/
structure AuthSettings where
  AUTH_ENABLED : Bool
  AWS_COGNITO_CLIENT_ID : String
deriving DecidableEq, Repr

/-- The claims that `jwt.decode` checks or returns for this service:
subject, audience, expiry. -/
structure Claims where
  sub : Option String
  aud : String
  exp : Int
deriving DecidableEq, Repr

/-- An inbound bearer token string, abstracted to the cases the verifier
distinguishes: the empty string, a string whose header cannot be decoded,
or a decoded JWT with an optional kid header, claims, and the key its
RS256 signature verifies under (ideal signature model: verification under
key material m succeeds exactly when m is the signing key). -/
inductive BearerToken where
  | emptyTok
  | badHeader
  | withHeader (kid : Option String) (claims : Claims) (sigKey : String)
deriving DecidableEq, Repr

/-- An HTTP error response: status code and detail string, the observable
content of a raised `HTTPException`. -/
structure HTTPFailure where
  statusCode : Nat
  detail : String
deriving DecidableEq, Repr

/-- Exceptions that can escape the try block of `validate_token`:
a `fastapi.HTTPException`, the two PyJWT error classes the function
distinguishes, or any other exception. -/
inductive PyExc where
  | httpExc (f : HTTPFailure)
  | jwtExpiredSignature
  | jwtInvalidToken
  | otherExc
deriving DecidableEq, Repr

/-- Dictionary lookup `keys[kid]` / membership `kid in keys` over the
kid-keyed mapping. -/
def lookupKid (keys : List (String × String)) (kid : String) :
    Option String :=
  (keys.find? (fun p => p.1 = kid)).map (fun p => p.2)

/-- Body of the try block of `validate_token`, given the key mapping that
`get_jwk_keys` returned.  `emptyTok` cannot reach this function (the
emptiness test precedes the try block); it is mapped to an arbitrary
exception for totality. -/
def validateTokenTry (s : AuthSettings) (keys : List (String × String))
    (now : Int) (tok : BearerToken) : Except PyExc Claims :=
  match tok with
  | BearerToken.emptyTok => Except.error PyExc.otherExc
  | BearerToken.badHeader =>
      -- jwt.get_unverified_header raises DecodeError <: InvalidTokenError
      Except.error PyExc.jwtInvalidToken
  | BearerToken.withHeader none _ _ =>
      Except.error (PyExc.httpExc { statusCode := 401, detail := "Invalid token format" })
  | BearerToken.withHeader (some kid) claims sigKey =>
      if keys = [] then
        Except.error (PyExc.httpExc { statusCode := 503, detail := "Authentication service unavailable" })
      else
        match lookupKid keys kid with
        | none =>
            Except.error (PyExc.httpExc { statusCode := 401, detail := "Invalid token signature" })
        | some material =>
            -- jwt.decode: signature first, then exp, then audience
            if sigKey ≠ material then
              Except.error PyExc.jwtInvalidToken
            else if claims.exp ≤ now then
              Except.error PyExc.jwtExpiredSignature
            else if claims.aud ≠ s.AWS_COGNITO_CLIENT_ID then
              Except.error PyExc.jwtInvalidToken
            else
              Except.ok claims

/-- `validate_token`: the empty-token test, then the try block, then the
except clauses.  Note that the `except Exception` clause also catches the
`HTTPException`s raised inside the try block (they subclass `Exception`),
so every `httpExc` — including the intended 503 and 401 rejections — is
replaced by a 500 "Authentication error". -/
def validateToken (s : AuthSettings) (keys : List (String × String))
    (now : Int) (tok : BearerToken) : Except HTTPFailure Claims :=
  match tok with
  | BearerToken.emptyTok =>
      Except.error { statusCode := 401, detail := "Invalid authentication credentials" }
  | _ =>
      match validateTokenTry s keys now tok with
      | Except.ok c => Except.ok c
      | Except.error PyExc.jwtExpiredSignature =>
          Except.error { statusCode := 401, detail := "Token has expired" }
      | Except.error PyExc.jwtInvalidToken =>
          Except.error { statusCode := 401, detail := "Invalid token format" }
      | Except.error (PyExc.httpExc _) =>
          Except.error { statusCode := 500, detail := "Authentication error" }
      | Except.error PyExc.otherExc =>
          Except.error { statusCode := 500, detail := "Authentication error" }

/-! ## Data model (app/db/models.py) -/

/-- `IntegrationType` enum. -/
inductive IntegrationType where
  | zoho
  | quickbooks
  | xero
deriving DecidableEq, Repr

/-- `UserStatus` enum. -/
inductive UserStatus where
  | active
  | inactive
  | pending_confirmation
deriving DecidableEq, Repr

/-- `UserRole` enum. -/
inductive UserRole where
  | admin
  | user
  | viewer
deriving DecidableEq, Repr

/-- A row of the `tenants` table.  `generate_uuid` is determinized by an
explicit id counter in the database state; `genUuid` is injective, which
models collision-freeness of uuid4. -/
structure Tenant where
  id : String
  business_name : String
  business_type : String
  email : String
  estimated_invoices_monthly : Option Nat
deriving DecidableEq, Repr

/-- A row of the `users` table. -/
structure UserRec where
  id : Nat
  tenant_id : String
  cognito_id : String
  email : String
  first_name : String
  last_name : String
  role : UserRole
  status : UserStatus
deriving DecidableEq, Repr

/-- Identity-side database state: the tenants and users tables plus the id
supplies (uuid4 determinized as a counter, integer autoincrement). -/
structure DbState where
  tenants : List Tenant
  users : List UserRec
  nextTenantId : Nat
  nextUserId : Nat
deriving DecidableEq, Repr

/-- Determinized `generate_uuid`: the n-th fresh uuid. -/
def genUuid (n : Nat) : String := "uuid-" ++ toString n

/-- `TenantRepository.get_by_email`. -/
def getTenantByEmail (db : DbState) (email : String) : Option Tenant :=
  db.tenants.find? (fun t => t.email = email)

/-- `UserRepository.get_by_cognito_id`. -/
def getUserByCognitoId (db : DbState) (cognitoId : String) : Option UserRec :=
  db.users.find? (fun u => u.cognito_id = cognitoId)

/-! ## get_current_user (app/core/auth.py lines 155-239)

When `settings.AUTH_ENABLED` is false, `get_current_user` returns
`create_mocked_user(db)` without touching the credentials;
`create_mocked_user` returns the first user of the database if one exists
and otherwise a fixed in-memory development user.  When the flag is true,
the function requires credentials, validates the token, requires a
non-empty `sub` claim, resolves the user by cognito id, and rejects any
user whose status is not ACTIVE with a 403. -/

/-- The fixed in-memory development user built by `create_mocked_user`
when the database holds no users. -/
def devUser : UserRec :=
  { id := 1
  , tenant_id := "00000000-0000-0000-0000-000000000000"
  , cognito_id := "dev-user-id"
  , email := "dev@example.com"
  , first_name := "Development"
  , last_name := "User"
  , role := UserRole.admin
  , status := UserStatus.active }

/-- `create_mocked_user`: the first user of the database if any
(`get_all(limit=1)`), otherwise the fixed development user. -/
def createMockedUser (db : DbState) : UserRec :=
  match db.users.head? with
  | some u => u
  | none => devUser

/-- `get_current_user`: the development bypass, the missing-credentials
check, token validation, subject extraction (`if not cognito_id` rejects
both a missing and an empty subject), user lookup, and the ACTIVE-status
gate. -/
def getCurrentUser (s : AuthSettings) (db : DbState)
    (keys : List (String × String)) (now : Int)
    (credentials : Option BearerToken) : Except HTTPFailure UserRec :=
  if s.AUTH_ENABLED = false then
    Except.ok (createMockedUser db)
  else
    match credentials with
    | none =>
        Except.error { statusCode := 401, detail := "Authentication required" }
    | some tok =>
        match validateToken s keys now tok with
        | Except.error f => Except.error f
        | Except.ok payload =>
            match payload.sub with
            | none =>
                Except.error { statusCode := 401, detail := "Invalid user identity in token" }
            | some cognitoId =>
                if cognitoId = "" then
                  Except.error { statusCode := 401, detail := "Invalid user identity in token" }
                else
                  match getUserByCognitoId db cognitoId with
                  | none =>
                      Except.error { statusCode := 404, detail := "User not found" }
                  | some user =>
                      if user.status ≠ UserStatus.active then
                        Except.error { statusCode := 403, detail := "User account is inactive or suspended" }
                      else
                        Except.ok user

/-! ## Identity Binder: create_tenant_with_admin
(app/services/auth_service.py lines 57-113; repositories
tenant_repository.py lines 16-31 and user_repository.py lines 16-34)

The service checks the two duplicate conditions, then calls
`TenantRepository.create` — which adds and **commits** the tenant row —
and then `UserRepository.create` for the admin user.  The whole body is
wrapped in `try/except Exception`, which converts any failure into an
error dictionary; nothing rolls the committed tenant back.  User-row
insertion can fail at the database layer (constraint violation,
connection loss); that possibility is the explicit `userInsertFails`
parameter of the embedding. -/

/-- Input schema `TenantCreate`. -/
structure TenantCreate where
  business_name : String
  business_type : String
  email : String
  estimated_invoices_monthly : Option Nat
deriving DecidableEq, Repr

/-- Input schema `UserCreate` (the fields `create_tenant_with_admin`
forwards after stripping cognito_id/role/status/tenant_id). -/
structure UserCreate where
  email : String
  first_name : String
  last_name : String
deriving DecidableEq, Repr

/-- Result of `create_tenant_with_admin`, which returns either the
created pair or an error dictionary. -/
inductive ProvisionResult where
  | success (tenantId : String) (userId : Nat)
  | errorTenantExists
  | errorUserExists
  | errorException
deriving DecidableEq, Repr

/-- `TenantRepository.create`: insert and commit a tenant row with a
fresh uuid. -/
def tenantRepoCreate (db : DbState) (td : TenantCreate) : Tenant × DbState :=
  let t : Tenant :=
    { id := genUuid db.nextTenantId
    , business_name := td.business_name
    , business_type := td.business_type
    , email := td.email
    , estimated_invoices_monthly := td.estimated_invoices_monthly }
  (t, { db with tenants := db.tenants ++ [t], nextTenantId := db.nextTenantId + 1 })

/-- `UserRepository.create`: insert and commit a user row. -/
def userRepoCreate (db : DbState) (cognitoId tenantId : String)
    (ud : UserCreate) (role : UserRole) (st : UserStatus) :
    UserRec × DbState :=
  let u : UserRec :=
    { id := db.nextUserId
    , tenant_id := tenantId
    , cognito_id := cognitoId
    , email := ud.email
    , first_name := ud.first_name
    , last_name := ud.last_name
    , role := role
    , status := st }
  (u, { db with users := db.users ++ [u], nextUserId := db.nextUserId + 1 })

/-- `AuthService.create_tenant_with_admin`: duplicate checks, committed
tenant creation, then admin-user creation with role ADMIN and status
PENDING_CONFIRMATION; a user-insertion failure is caught by the
surrounding `except Exception` and turned into an error result, with the
already-committed tenant left in place. -/
def createTenantWithAdmin (db : DbState) (userInsertFails : Bool)
    (td : TenantCreate) (ud : UserCreate) (cognitoId : String) :
    ProvisionResult × DbState :=
  match getTenantByEmail db td.email with
  | some _ => (ProvisionResult.errorTenantExists, db)
  | none =>
      match getUserByCognitoId db cognitoId with
      | some _ => (ProvisionResult.errorUserExists, db)
      | none =>
          let (t, db1) := tenantRepoCreate db td
          if userInsertFails then
            (ProvisionResult.errorException, db1)
          else
            let (u, db2) :=
              userRepoCreate db1 cognitoId t.id ud UserRole.admin
                UserStatus.pending_confirmation
            (ProvisionResult.success t.id u.id, db2)

/-! ## Credential Vault (app/db/repositories/integration_repository.py and
app/services/auth_service.py lines 163-261)

`IntegrationKeyRepository.create` implements the create-or-update upsert:
if a row for (tenant_id, integration_type) exists its fields are
overwritten in place (same id) and `updated_at` is stamped; otherwise a
new row is inserted.  `AuthService.store_integration_tokens`, however,
calls `self.integration_repo.create_or_update(...)` — a method the
repository class does not define (its methods are listed in
`integrationKeyRepositoryMethods` below), so the attribute lookup raises
`AttributeError`, which the surrounding `except Exception` converts into
an error result with nothing stored.
`AuthService.get_integration_tokens` looks the row up, returns `None`
when absent, returns an expired-result dictionary carrying the decrypted
refresh token when `now >= expires_at`, and otherwise decrypts both
tokens and merges the stored additional-data JSON object into the result
dictionary (`result.update(additional)`). -/

/-- A row of the `integration_keys` table.  Token columns hold Fernet
ciphertext; `additional_data` holds the JSON object of extra token-response
fields, modelled as the association list it serializes
(string-valued keys; a numeric field in the blob is outside the model). -/
structure IntegrationKey where
  id : Nat
  tenant_id : String
  integration_type : IntegrationType
  access_token : Ciphertext
  refresh_token : Ciphertext
  expires_at : Int
  org_id : Option String
  tenant_id_external : Option String
  additional_data : Option (List (String × String))
  updated_at : Option Int
deriving DecidableEq, Repr

/-- Vault-side database state: the `integration_keys` table plus the
autoincrement id supply. -/
structure VaultDb where
  rows : List IntegrationKey
  nextId : Nat
deriving DecidableEq, Repr

/-- `IntegrationKeyRepository.get_by_tenant_and_type`: first row matching
both columns. -/
def getByTenantAndType (db : VaultDb) (tenantId : String)
    (ty : IntegrationType) : Option IntegrationKey :=
  db.rows.find? (fun r => r.tenant_id = tenantId ∧ r.integration_type = ty)

/-- Replace the first row satisfying the predicate, leaving the rest of
the table untouched (the effect of mutating the ORM object returned by
`.first()` and committing). -/
def updateFirst (rows : List IntegrationKey)
    (p : IntegrationKey → Bool) (f : IntegrationKey → IntegrationKey) :
    List IntegrationKey :=
  match rows with
  | [] => []
  | r :: rs => if p r then f r :: rs else r :: updateFirst rs p f

/-- `IntegrationKeyRepository.create`: the create-or-update upsert.  On a
hit the existing row keeps its id and has its fields overwritten and
`updated_at` stamped; on a miss a fresh row is inserted. -/
def integrationKeyCreate (db : VaultDb) (now : Int) (tenantId : String)
    (ty : IntegrationType) (access refresh : Ciphertext) (expiresAt : Int)
    (orgId externalId : Option String)
    (addData : Option (List (String × String))) :
    IntegrationKey × VaultDb :=
  match getByTenantAndType db tenantId ty with
  | some k0 =>
      let k : IntegrationKey :=
        { k0 with
          access_token := access
        , refresh_token := refresh
        , expires_at := expiresAt
        , org_id := orgId
        , tenant_id_external := externalId
        , additional_data := addData
        , updated_at := some now }
      (k, { db with
              rows := updateFirst db.rows
                (fun r => decide (r.tenant_id = tenantId ∧ r.integration_type = ty))
                (fun _ => k) })
  | none =>
      let k : IntegrationKey :=
        { id := db.nextId
        , tenant_id := tenantId
        , integration_type := ty
        , access_token := access
        , refresh_token := refresh
        , expires_at := expiresAt
        , org_id := orgId
        , tenant_id_external := externalId
        , additional_data := addData
        , updated_at := none }
      (k, { rows := db.rows ++ [k], nextId := db.nextId + 1 })

/-- The methods defined by `class IntegrationKeyRepository` in
app/db/repositories/integration_repository.py (the class that
`AuthService.__init__` instantiates). -/
def integrationKeyRepositoryMethods : List String :=
  ["__init__", "create", "get_by_id", "get_by_tenant_and_type",
   "get_all_by_tenant", "update", "delete", "delete_by_tenant_and_type"]

/-- The `token_data` dictionary passed to `store_integration_tokens`:
optional token fields plus the remaining response fields. -/
structure TokenData where
  access_token : Option String
  refresh_token : Option String
  extras : List (String × String)
deriving DecidableEq, Repr

/-- Python truthiness test `not x` for an optional string: true for
`None` and for the empty string. -/
def isFalsyOpt : Option String → Bool
  | none => true
  | some s => s = ""

/-- Result of `store_integration_tokens`: the success dictionary, the
missing-tokens error, or the error dictionary produced by the
`except Exception` block. -/
inductive StoreResult where
  | success (tenantId : String) (ty : IntegrationType) (expiresAt : Int)
  | errorMissingTokens
  | errorException
deriving DecidableEq, Repr

/-- Whether a store result is the success dictionary. -/
def StoreResult.isSuccess : StoreResult → Bool
  | StoreResult.success _ _ _ => true
  | _ => false

/-- `AuthService.store_integration_tokens`: validates token presence,
encrypts both tokens, and then attempts
`self.integration_repo.create_or_update(...)`.  `create_or_update` is not
among `integrationKeyRepositoryMethods` (see
`createOrUpdate_not_defined`), so the attribute lookup raises
`AttributeError`; the `except Exception` block catches it and returns the
error result, leaving the database unchanged.  A cipher configuration
error on the encrypt calls is caught by the same block. -/
def storeIntegrationTokens (encryptionKey : List Nat) (db : VaultDb)
    (_tenantId : String) (_ty : IntegrationType) (tokenData : TokenData)
    (_expiresAt : Int) (_orgId _externalId : Option String) :
    StoreResult × VaultDb :=
  if isFalsyOpt tokenData.access_token || isFalsyOpt tokenData.refresh_token then
    (StoreResult.errorMissingTokens, db)
  else
    match createCipher encryptionKey with
    | Except.error _ => (StoreResult.errorException, db)
    | Except.ok _ =>
        -- encrypted tokens and the additional-data JSON are computed,
        -- then the call to the missing create_or_update method raises
        (StoreResult.errorException, db)

/-- The decrypted-credential dictionary built by the unexpired branch of
`get_integration_tokens`, before and after `result.update(additional)`.
Extra keys colliding with the dictionary's own string-valued fields
overwrite them, others accumulate. -/
structure TokenResult where
  access_token : String
  refresh_token : String
  expires_at : Int
  org_id : Option String
  tenant_id_external : Option String
  extra : List (String × String)
deriving DecidableEq, Repr

/-- One step of `result.update(additional)`. -/
def applyExtraEntry (r : TokenResult) (kv : String × String) : TokenResult :=
  if kv.1 = "access_token" then { r with access_token := kv.2 }
  else if kv.1 = "refresh_token" then { r with refresh_token := kv.2 }
  else if kv.1 = "org_id" then { r with org_id := some kv.2 }
  else if kv.1 = "tenant_id_external" then { r with tenant_id_external := some kv.2 }
  else { r with extra := insertKey r.extra kv.1 kv.2 }

/-- Result of `get_integration_tokens`: `None` when no row exists, the
expired-error dictionary carrying the decrypted refresh token, the full
decrypted dictionary, or the error dictionary of the except block
(e.g. on a decryption failure). -/
inductive RetrieveOutcome where
  | noCredential
  | expired (refresh_token : String) (expires_at : Int)
  | tokens (r : TokenResult)
  | failure
deriving DecidableEq, Repr

/-- `AuthService.get_integration_tokens`: row lookup, expiry check
(`now >= expires_at` is expired and yields the decrypted refresh token),
decryption of both tokens, and the merge of the stored additional data. -/
def getIntegrationTokens (encryptionKey : List Nat) (db : VaultDb)
    (now : Int) (tenantId : String) (ty : IntegrationType) :
    RetrieveOutcome :=
  match getByTenantAndType db tenantId ty with
  | none => RetrieveOutcome.noCredential
  | some k =>
      if k.expires_at ≤ now then
        match decryptToken encryptionKey k.refresh_token with
        | Except.ok r => RetrieveOutcome.expired r k.expires_at
        | Except.error _ => RetrieveOutcome.failure
      else
        match decryptToken encryptionKey k.access_token,
              decryptToken encryptionKey k.refresh_token with
        | Except.ok a, Except.ok r =>
            let base : TokenResult :=
              { access_token := a
              , refresh_token := r
              , expires_at := k.expires_at
              , org_id := k.org_id
              , tenant_id_external := k.tenant_id_external
              , extra := [] }
            match k.additional_data with
            | none => RetrieveOutcome.tokens base
            | some extras => RetrieveOutcome.tokens (extras.foldl applyExtraEntry base)
        | _, _ => RetrieveOutcome.failure

/-! ## Supporting facts -/

/-- The method name that `store_integration_tokens` invokes does not exist
on the repository class: the call raises `AttributeError`. -/
theorem createOrUpdate_not_defined :
    "create_or_update" ∉ integrationKeyRepositoryMethods := by
  decide

/-- The repository-level upsert behaves as documented: creating twice for
the same (tenant, integration type) leaves exactly one row, with the
fields of the second call and the identity of the first. -/
theorem integrationKeyCreate_upsert_example :
    (integrationKeyCreate
      (integrationKeyCreate { rows := [], nextId := 0 } 5 "t1"
        IntegrationType.zoho (fernetEncrypt (FernetKey.hashed [1]) "A1")
        (fernetEncrypt (FernetKey.hashed [1]) "R1") 10 none none none).2
      6 "t1" IntegrationType.zoho
      (fernetEncrypt (FernetKey.hashed [1]) "A2")
      (fernetEncrypt (FernetKey.hashed [1]) "R2") 20 none none none).2.rows
    = [{ id := 0, tenant_id := "t1", integration_type := IntegrationType.zoho
       , access_token := fernetEncrypt (FernetKey.hashed [1]) "A2"
       , refresh_token := fernetEncrypt (FernetKey.hashed [1]) "R2"
       , expires_at := 20, org_id := none, tenant_id_external := none
       , additional_data := none, updated_at := some 6 }] := by
  decide

/-! ## Claim theorems -/

/-- C3: if the configured encryption secret is missing (the empty byte
string that an unset or empty ENCRYPTION_KEY encodes to), constructing
the Credential Cipher fails immediately with the configuration error —
the check is the first statement of the cipher constructor, before any
Fernet operation, so no encrypt or decrypt call is needed to surface it. -/
theorem C3_missing_secret_fails_at_cipher_construction :
    createCipher [] = Except.error CipherError.configurationError := by
  rfl

/-- C7: for every non-empty configured secret and non-empty plaintext,
decrypting the result of encryption yields the plaintext back, even
though the encrypting and the decrypting call each construct their own
cipher instance from the secret: key derivation (direct use at 32 bytes,
digest otherwise) is a pure function of the secret, hence reproducible. -/
theorem C7_decrypt_encrypt_roundtrip (secret : List Nat) (x : String)
    (hs : secret ≠ []) (_hx : x ≠ "") :
    (encryptToken secret x).bind (decryptToken secret) = Except.ok x := by
  unfold encryptToken decryptToken createCipher
  rw [if_neg hs]
  by_cases hl : secret.length ≠ 32
  · rw [if_pos hl]
    simp [Except.bind, fernetDecrypt, fernetEncrypt]
  · rw [if_neg hl]
    simp [Except.bind, fernetDecrypt, fernetEncrypt]

/-- Closed instance of C7 at a concrete secret and plaintext. -/
theorem C7_decrypt_encrypt_roundtrip_witness :
    ([1, 2, 3] : List Nat) ≠ [] ∧ ("tok" : String) ≠ "" ∧
    (encryptToken [1, 2, 3] "tok").bind (decryptToken [1, 2, 3]) =
      Except.ok "tok" :=
  ⟨by decide, by decide,
   C7_decrypt_encrypt_roundtrip [1, 2, 3] "tok" (by decide) (by decide)⟩

/-- C1 (code bug): the Vault store operation never persists anything and
never succeeds.  `store_integration_tokens` invokes the non-existent
repository method `create_or_update` (see `createOrUpdate_not_defined`),
so every call — for any state and input — ends in the except block with
an error result and an unchanged database, contradicting the documented
create-or-update upsert that `IntegrationKeyRepository.create` was meant
to provide (see `integrationKeyCreate_upsert_example` for the intended
behaviour). -/
theorem C1_store_never_persists (key : List Nat) (db : VaultDb)
    (t : String) (ty : IntegrationType) (td : TokenData) (exp : Int)
    (org ext : Option String) :
    (storeIntegrationTokens key db t ty td exp org ext).2 = db ∧
    (storeIntegrationTokens key db t ty td exp org ext).1.isSuccess = false := by
  unfold storeIntegrationTokens
  split
  · exact ⟨rfl, rfl⟩
  · split
    · exact ⟨rfl, rfl⟩
    · exact ⟨rfl, rfl⟩

/-- C6: the KeyRing Cache fails closed and serves fresh hits.  First
conjunct: on every fetch failure outside a fresh cache hit — including
when a stale previously-fetched snapshot exists — the returned mapping is
empty and the cached state is untouched; no exception escapes (the
embedding is a total function).  Second conjunct: when the cached
snapshot is non-empty and younger than the 1-hour TTL, it is returned
unchanged and the outcome does not depend on the fetch at all (no network
call). -/
theorem C6_cache_fails_closed_and_serves_fresh (st : JwkCacheState)
    (now : Nat) (f : FetchOutcome) :
    (f.isFailure = true → ¬ cacheIsFresh st now →
      getJwkKeys st now f = ([], st)) ∧
    (cacheIsFresh st now → getJwkKeys st now f = (st.jwk_keys, st)) := by
  constructor
  · intro hf hnf
    unfold getJwkKeys
    rw [if_neg hnf]
    cases f with
    | ok ks => simp [FetchOutcome.isFailure] at hf
    | connectionError => rfl
    | httpError => rfl
    | otherError => rfl
  · intro hfresh
    unfold getJwkKeys
    rw [if_pos hfresh]

/-- Closed instance of C6: a stale snapshot (fetched at 0, queried at
4000) with a connection failure yields the empty mapping and an untouched
cache; the same snapshot queried at 10 is served unchanged. -/
theorem C6_cache_fails_closed_and_serves_fresh_witness :
    FetchOutcome.connectionError.isFailure = true ∧
    ¬ cacheIsFresh { jwk_keys := [("k1", "m1")], last_jwk_fetch := 0 } 4000 ∧
    getJwkKeys { jwk_keys := [("k1", "m1")], last_jwk_fetch := 0 } 4000
      FetchOutcome.connectionError
      = ([], { jwk_keys := [("k1", "m1")], last_jwk_fetch := 0 }) ∧
    cacheIsFresh { jwk_keys := [("k1", "m1")], last_jwk_fetch := 0 } 10 ∧
    getJwkKeys { jwk_keys := [("k1", "m1")], last_jwk_fetch := 0 } 10
      FetchOutcome.connectionError
      = ([("k1", "m1")], { jwk_keys := [("k1", "m1")], last_jwk_fetch := 0 }) :=
  ⟨by decide, by decide,
   (C6_cache_fails_closed_and_serves_fresh _ _ _).1 (by decide) (by decide),
   by decide,
   (C6_cache_fails_closed_and_serves_fresh _ _ _).2 (by decide)⟩

/-- C4: for every token whose header kid is present in the current key
set, whose signature verifies under that key (the token's signing key is
exactly the key material found for the kid), whose audience equals the
configured client identifier, and whose expiry lies in the future,
`validate_token` succeeds and returns the token's claims verbatim — in
particular the returned payload's sub is the subject embedded in the
token, unchanged. -/
theorem C4_valid_token_verifies (s : AuthSettings)
    (keys : List (String × String)) (now : Int) (kid material : String)
    (claims : Claims)
    (hkid : lookupKid keys kid = some material)
    (haud : claims.aud = s.AWS_COGNITO_CLIENT_ID)
    (hexp : now < claims.exp) :
    validateToken s keys now (BearerToken.withHeader (some kid) claims material)
      = Except.ok claims := by
  have hne : keys ≠ [] := by
    intro h
    rw [h] at hkid
    simp [lookupKid] at hkid
  have hnotexp : ¬ claims.exp ≤ now := not_le.mpr hexp
  simp [validateToken, validateTokenTry, hne, hkid, hnotexp, haud]

/-- Closed instance of C4: a well-signed, correctly-addressed, unexpired
token for subject sub-abc verifies and yields that subject. -/
theorem C4_valid_token_verifies_witness :
    lookupKid [("k1", "mat1")] "k1" = some "mat1" ∧
    (Claims.mk (some "sub-abc") "client-123" 100).aud
      = (AuthSettings.mk true "client-123").AWS_COGNITO_CLIENT_ID ∧
    (0 : Int) < (Claims.mk (some "sub-abc") "client-123" 100).exp ∧
    validateToken (AuthSettings.mk true "client-123") [("k1", "mat1")] 0
      (BearerToken.withHeader (some "k1")
        (Claims.mk (some "sub-abc") "client-123" 100) "mat1")
      = Except.ok (Claims.mk (some "sub-abc") "client-123" 100) :=
  ⟨rfl, rfl, by decide,
   C4_valid_token_verifies (AuthSettings.mk true "client-123")
     [("k1", "mat1")] 0 "k1" "mat1"
     (Claims.mk (some "sub-abc") "client-123" 100) rfl rfl (by decide)⟩

/-- C5 (code bug): the two key-related failures do not surface as the
discriminated 503 / 401 rejections the code constructs.  The
`HTTPException(503, "Authentication service unavailable")` raised for an
empty key set and the `HTTPException(401, "Invalid token signature")`
raised for an unknown kid are both thrown inside the try block of
`validate_token`, whose final `except Exception` clause catches them
(FastAPI's HTTPException subclasses Exception) and replaces them with a
generic 500 "Authentication error".  First conjunct: empty key set gives
the 500.  Second conjunct: non-empty key set lacking the token's kid
gives the same 500. -/
theorem C5_key_failures_collapse_to_500 (s : AuthSettings) (now : Int)
    (kid sigKey : String) (claims : Claims)
    (keys : List (String × String))
    (hne : keys ≠ []) (hmiss : lookupKid keys kid = none) :
    validateToken s [] now (BearerToken.withHeader (some kid) claims sigKey)
      = Except.error { statusCode := 500, detail := "Authentication error" } ∧
    validateToken s keys now (BearerToken.withHeader (some kid) claims sigKey)
      = Except.error { statusCode := 500, detail := "Authentication error" } := by
  constructor
  · simp [validateToken, validateTokenTry]
  · simp [validateToken, validateTokenTry, hne, hmiss]

/-- Closed instance of C5: with no keys, and with a key set that lacks
kid k1, validation of a token carrying kid k1 answers 500. -/
theorem C5_key_failures_collapse_to_500_witness :
    ([("k2", "mat2")] : List (String × String)) ≠ [] ∧
    lookupKid [("k2", "mat2")] "k1" = none ∧
    validateToken (AuthSettings.mk true "client-123") [] 0
      (BearerToken.withHeader (some "k1")
        (Claims.mk (some "sub-abc") "client-123" 100) "mat1")
      = Except.error { statusCode := 500, detail := "Authentication error" } ∧
    validateToken (AuthSettings.mk true "client-123") [("k2", "mat2")] 0
      (BearerToken.withHeader (some "k1")
        (Claims.mk (some "sub-abc") "client-123" 100) "mat1")
      = Except.error { statusCode := 500, detail := "Authentication error" } :=
  ⟨by decide, rfl,
   (C5_key_failures_collapse_to_500 (AuthSettings.mk true "client-123") 0
     "k1" "mat1" (Claims.mk (some "sub-abc") "client-123" 100)
     [("k2", "mat2")] (by decide) rfl).1,
   (C5_key_failures_collapse_to_500 (AuthSettings.mk true "client-123") 0
     "k1" "mat1" (Claims.mk (some "sub-abc") "client-123" 100)
     [("k2", "mat2")] (by decide) rfl).2⟩

/-- C2 counterexample: on an empty database, with user insertion failing,
`create_tenant_with_admin` ends in an error result, yet the persisted
state is *not* unchanged — the committed tenant row remains, and no user
row exists, so a tenant is left without any admin user.  This refutes
the claimed roll-back / both-or-neither atomicity at a concrete input. -/
theorem C2_no_rollback_counterexample :
    (createTenantWithAdmin { tenants := [], users := [], nextTenantId := 0, nextUserId := 0 }
        true
        { business_name := "Acme", business_type := "llc"
        , email := "acme@example.com", estimated_invoices_monthly := none }
        { email := "admin@example.com", first_name := "Ada", last_name := "Lovelace" }
        "cog-1").1 = ProvisionResult.errorException ∧
    (createTenantWithAdmin { tenants := [], users := [], nextTenantId := 0, nextUserId := 0 }
        true
        { business_name := "Acme", business_type := "llc"
        , email := "acme@example.com", estimated_invoices_monthly := none }
        { email := "admin@example.com", first_name := "Ada", last_name := "Lovelace" }
        "cog-1").2
      ≠ { tenants := [], users := [], nextTenantId := 0, nextUserId := 0 } ∧
    (createTenantWithAdmin { tenants := [], users := [], nextTenantId := 0, nextUserId := 0 }
        true
        { business_name := "Acme", business_type := "llc"
        , email := "acme@example.com", estimated_invoices_monthly := none }
        { email := "admin@example.com", first_name := "Ada", last_name := "Lovelace" }
        "cog-1").2.tenants
      = [{ id := genUuid 0, business_name := "Acme", business_type := "llc"
         , email := "acme@example.com", estimated_invoices_monthly := none }] ∧
    (createTenantWithAdmin { tenants := [], users := [], nextTenantId := 0, nextUserId := 0 }
        true
        { business_name := "Acme", business_type := "llc"
        , email := "acme@example.com", estimated_invoices_monthly := none }
        { email := "admin@example.com", first_name := "Ada", last_name := "Lovelace" }
        "cog-1").2.users = [] := by
  refine ⟨rfl, ?_, rfl, rfl⟩
  decide

/-- C2 as amended: when the duplicate checks pass and user creation then
fails, the call returns an error result, but the already-committed tenant
row remains persisted (with the fresh uuid and the submitted business
fields) and no user row is added — there is no roll-back; only the
tenant-id counter moves with the insertion. -/
theorem C2_user_failure_leaves_orphan_tenant (db : DbState)
    (td : TenantCreate) (ud : UserCreate) (cid : String)
    (h1 : getTenantByEmail db td.email = none)
    (h2 : getUserByCognitoId db cid = none) :
    createTenantWithAdmin db true td ud cid =
      (ProvisionResult.errorException,
       { db with
         tenants := db.tenants ++
           [{ id := genUuid db.nextTenantId
            , business_name := td.business_name
            , business_type := td.business_type
            , email := td.email
            , estimated_invoices_monthly := td.estimated_invoices_monthly }]
       , nextTenantId := db.nextTenantId + 1 }) := by
  simp [createTenantWithAdmin, h1, h2, tenantRepoCreate]

/-- Closed instance of the amended C2 at the concrete input of the
counterexample. -/
theorem C2_user_failure_leaves_orphan_tenant_witness :
    getTenantByEmail { tenants := [], users := [], nextTenantId := 0, nextUserId := 0 }
      "acme@example.com" = none ∧
    getUserByCognitoId { tenants := [], users := [], nextTenantId := 0, nextUserId := 0 }
      "cog-1" = none ∧
    createTenantWithAdmin { tenants := [], users := [], nextTenantId := 0, nextUserId := 0 }
        true
        { business_name := "Acme", business_type := "llc"
        , email := "acme@example.com", estimated_invoices_monthly := none }
        { email := "admin@example.com", first_name := "Ada", last_name := "Lovelace" }
        "cog-1"
      = (ProvisionResult.errorException,
         { tenants := [{ id := genUuid 0, business_name := "Acme"
                       , business_type := "llc", email := "acme@example.com"
                       , estimated_invoices_monthly := none }]
         , users := [], nextTenantId := 1, nextUserId := 0 }) :=
  ⟨rfl, rfl,
   C2_user_failure_leaves_orphan_tenant
     { tenants := [], users := [], nextTenantId := 0, nextUserId := 0 }
     { business_name := "Acme", business_type := "llc"
     , email := "acme@example.com", estimated_invoices_monthly := none }
     { email := "admin@example.com", first_name := "Ada", last_name := "Lovelace" }
     "cog-1" rfl rfl⟩

/-- C9 counterexample: with verification disabled and a non-empty users
table, `get_current_user` returns the first database user — here a
non-admin tenant user distinct from the fixed development user — so the
bypass does not return the same fixed, pre-defined development user for
every state. -/
theorem C9_mock_user_counterexample :
    getCurrentUser (AuthSettings.mk false "client-123")
      { tenants := []
      , users := [{ id := 2, tenant_id := "t-1", cognito_id := "alice-cog"
                  , email := "alice@example.com", first_name := "Alice"
                  , last_name := "L", role := UserRole.user
                  , status := UserStatus.active }]
      , nextTenantId := 0, nextUserId := 3 } [] 0 none
      = Except.ok { id := 2, tenant_id := "t-1", cognito_id := "alice-cog"
                  , email := "alice@example.com", first_name := "Alice"
                  , last_name := "L", role := UserRole.user
                  , status := UserStatus.active } ∧
    ({ id := 2, tenant_id := "t-1", cognito_id := "alice-cog"
     , email := "alice@example.com", first_name := "Alice"
     , last_name := "L", role := UserRole.user
     , status := UserStatus.active } : UserRec) ≠ devUser := by
  refine ⟨rfl, ?_⟩
  decide

/-- C9 as amended: when the verification-disable flag is set,
`get_current_user` bypasses token verification for every caller and every
state, returning the mocked user — the first user of the database when
one exists, and the fixed development user only on an empty users table;
the result does not depend on the presented credentials or the key set.
When the flag is true the bypass is unreachable: a user is returned only
if the presented bearer token passed verification. -/
theorem C9_bypass_behaviour (s : AuthSettings) (db : DbState)
    (keys : List (String × String)) (now : Int)
    (cred : Option BearerToken) :
    (s.AUTH_ENABLED = false →
      getCurrentUser s db keys now cred = Except.ok (createMockedUser db)) ∧
    (s.AUTH_ENABLED = true → ∀ u,
      getCurrentUser s db keys now cred = Except.ok u →
      ∃ tok claims, cred = some tok ∧
        validateToken s keys now tok = Except.ok claims) := by
  constructor
  · intro h
    simp [getCurrentUser, h]
  · intro h u hok
    cases cred with
    | none => simp [getCurrentUser, h] at hok
    | some tok =>
        simp only [getCurrentUser, h] at hok
        simp only [Bool.true_eq_false, if_false] at hok
        cases hv : validateToken s keys now tok with
        | error f => rw [hv] at hok; exact absurd hok (by simp)
        | ok claims => exact ⟨tok, claims, rfl, hv⟩

/-- Closed instance of the amended C9: the disabled branch returns the
mocked user; the enabled branch, on a successful authentication, exhibits
the verified token. -/
theorem C9_bypass_behaviour_witness :
    getCurrentUser (AuthSettings.mk false "client-123")
      { tenants := [], users := [], nextTenantId := 0, nextUserId := 0 }
      [] 0 none
      = Except.ok (createMockedUser
          { tenants := [], users := [], nextTenantId := 0, nextUserId := 0 }) ∧
    (∃ tok claims,
      (some (BearerToken.withHeader (some "k1")
         (Claims.mk (some "sub-abc") "client-123" 100) "mat1")
        = some tok) ∧
      validateToken (AuthSettings.mk true "client-123") [("k1", "mat1")] 0 tok
        = Except.ok claims) :=
  ⟨(C9_bypass_behaviour (AuthSettings.mk false "client-123")
      { tenants := [], users := [], nextTenantId := 0, nextUserId := 0 }
      [] 0 none).1 rfl,
   (C9_bypass_behaviour (AuthSettings.mk true "client-123")
      { tenants := []
      , users := [{ id := 7, tenant_id := "t-1", cognito_id := "sub-abc"
                  , email := "a@example.com", first_name := "A"
                  , last_name := "B", role := UserRole.user
                  , status := UserStatus.active }]
      , nextTenantId := 0, nextUserId := 8 }
      [("k1", "mat1")] 0
      (some (BearerToken.withHeader (some "k1")
        (Claims.mk (some "sub-abc") "client-123" 100) "mat1"))).2 rfl
     { id := 7, tenant_id := "t-1", cognito_id := "sub-abc"
     , email := "a@example.com", first_name := "A", last_name := "B"
     , role := UserRole.user, status := UserStatus.active } rfl⟩

/-- C10: with verification enabled, only ACTIVE users pass.  First
conjunct: every user successfully returned by `get_current_user` has
status ACTIVE.  Second conjunct: a user whose record exists but whose
status is not ACTIVE (pending-confirmation or inactive) is rejected with
the 403 response, even when the bearer token validates and its subject
resolves to that record. -/
theorem C10_active_status_gate :
    (∀ (s : AuthSettings) (db : DbState) (keys : List (String × String))
       (now : Int) (cred : Option BearerToken) (u : UserRec),
       s.AUTH_ENABLED = true →
       getCurrentUser s db keys now cred = Except.ok u →
       u.status = UserStatus.active) ∧
    (∀ (s : AuthSettings) (db : DbState) (keys : List (String × String))
       (now : Int) (tok : BearerToken) (claims : Claims) (cid : String)
       (u : UserRec),
       s.AUTH_ENABLED = true →
       validateToken s keys now tok = Except.ok claims →
       claims.sub = some cid → cid ≠ "" →
       getUserByCognitoId db cid = some u →
       u.status ≠ UserStatus.active →
       getCurrentUser s db keys now (some tok)
         = Except.error { statusCode := 403, detail := "User account is inactive or suspended" }) := by
  constructor
  · intro s db keys now cred u h hok
    cases cred with
    | none => simp [getCurrentUser, h] at hok
    | some tok =>
        simp only [getCurrentUser, h] at hok
        simp only [Bool.true_eq_false, if_false] at hok
        split at hok
        · exact absurd hok (by simp)
        · split at hok
          · exact absurd hok (by simp)
          · split at hok
            · exact absurd hok (by simp)
            · split at hok
              · exact absurd hok (by simp)
              · split at hok
                · exact absurd hok (by simp)
                · rename_i hst
                  injection hok with he
                  rw [← he]
                  simpa using hst
  · intro s db keys now tok claims cid u h hv hsub hc hu hst
    simp [getCurrentUser, h, hv, hsub, hc, hu, hst]

/-- Concrete fixtures for the enabled-authentication scenarios: a key
set holding kid k1, a validly signed unexpired token for subject
sub-abc, and databases holding an active and a pending-confirmation user
for that subject. -/
def fixSettingsOn : AuthSettings :=
  { AUTH_ENABLED := true, AWS_COGNITO_CLIENT_ID := "client-123" }

/-- Key set fixture. -/
def fixKeys1 : List (String × String) := [("k1", "mat1")]

/-- Claims fixture. -/
def fixClaims1 : Claims :=
  { sub := some "sub-abc", aud := "client-123", exp := 100 }

/-- Token fixture, signed under the key material of kid k1. -/
def fixTok1 : BearerToken :=
  BearerToken.withHeader (some "k1") fixClaims1 "mat1"

/-- Active user fixture for subject sub-abc. -/
def fixActiveUser : UserRec :=
  { id := 7, tenant_id := "t-1", cognito_id := "sub-abc"
  , email := "a@example.com", first_name := "A", last_name := "B"
  , role := UserRole.user, status := UserStatus.active }

/-- Pending-confirmation user fixture for subject sub-abc. -/
def fixInactiveUser : UserRec :=
  { id := 8, tenant_id := "t-1", cognito_id := "sub-abc"
  , email := "b@example.com", first_name := "A", last_name := "B"
  , role := UserRole.user, status := UserStatus.pending_confirmation }

/-- Database fixture holding only the active user. -/
def fixDbActive : DbState :=
  { tenants := [], users := [fixActiveUser], nextTenantId := 0, nextUserId := 9 }

/-- Database fixture holding only the pending-confirmation user. -/
def fixDbInactive : DbState :=
  { tenants := [], users := [fixInactiveUser], nextTenantId := 0, nextUserId := 9 }

/-- Closed instance of C10: the active user is returned and is ACTIVE;
the pending-confirmation user with the same valid token is rejected 403. -/
theorem C10_active_status_gate_witness :
    getCurrentUser fixSettingsOn fixDbActive fixKeys1 0 (some fixTok1)
      = Except.ok fixActiveUser ∧
    fixActiveUser.status = UserStatus.active ∧
    validateToken fixSettingsOn fixKeys1 0 fixTok1 = Except.ok fixClaims1 ∧
    getUserByCognitoId fixDbInactive "sub-abc" = some fixInactiveUser ∧
    fixInactiveUser.status ≠ UserStatus.active ∧
    getCurrentUser fixSettingsOn fixDbInactive fixKeys1 0 (some fixTok1)
      = Except.error { statusCode := 403, detail := "User account is inactive or suspended" } :=
  ⟨rfl,
   C10_active_status_gate.1 fixSettingsOn fixDbActive fixKeys1 0
     (some fixTok1) fixActiveUser rfl rfl,
   rfl, rfl, by decide,
   C10_active_status_gate.2 fixSettingsOn fixDbInactive fixKeys1 0
     fixTok1 fixClaims1 "sub-abc" fixInactiveUser rfl rfl rfl (by decide)
     rfl (by decide)⟩

/-- Vault-shaped additional-data blob: it carries no key that collides
with the token fields of the result dictionary.  Every blob written by
`store_integration_tokens` has this shape, because that function strips
the access_token and refresh_token keys before serializing the rest of
the token response. -/
def noTokenKeys : Option (List (String × String)) → Bool
  | none => true
  | some l => l.all (fun kv => kv.1 ≠ "access_token" ∧ kv.1 ≠ "refresh_token")

/-- One `result.update` step over a key that is not a token key leaves
the token and expiry fields of the result dictionary unchanged. -/
theorem applyExtraEntry_preserves_tokens (r : TokenResult)
    (kv : String × String)
    (h1 : kv.1 ≠ "access_token") (h2 : kv.1 ≠ "refresh_token") :
    (applyExtraEntry r kv).access_token = r.access_token ∧
    (applyExtraEntry r kv).refresh_token = r.refresh_token ∧
    (applyExtraEntry r kv).expires_at = r.expires_at := by
  unfold applyExtraEntry
  rw [if_neg h1, if_neg h2]
  split
  · exact ⟨rfl, rfl, rfl⟩
  · split
    · exact ⟨rfl, rfl, rfl⟩
    · exact ⟨rfl, rfl, rfl⟩

/-- Folding `result.update` over a blob without token keys leaves the
token and expiry fields of the result dictionary unchanged. -/
theorem foldl_applyExtraEntry_preserves_tokens
    (l : List (String × String)) (r : TokenResult)
    (h : l.all (fun kv => kv.1 ≠ "access_token" ∧ kv.1 ≠ "refresh_token") = true) :
    (l.foldl applyExtraEntry r).access_token = r.access_token ∧
    (l.foldl applyExtraEntry r).refresh_token = r.refresh_token ∧
    (l.foldl applyExtraEntry r).expires_at = r.expires_at := by
  induction l generalizing r with
  | nil => exact ⟨rfl, rfl, rfl⟩
  | cons kv tl ih =>
      simp only [List.all_cons, Bool.and_eq_true, decide_eq_true_eq] at h
      obtain ⟨⟨h1, h2⟩, htl⟩ := h
      have hstep := applyExtraEntry_preserves_tokens r kv h1 h2
      have hrec := ih (applyExtraEntry r kv) (by
        simp only [List.all_eq_true, decide_eq_true_eq]
        intro x hx
        have := List.all_eq_true.mp htl x hx
        simpa using this)
      exact ⟨hrec.1.trans hstep.1, hrec.2.1.trans hstep.2.1,
             hrec.2.2.trans hstep.2.2⟩

/-- C8: the Vault retrieve contract.  For a stored credential whose
ciphertexts were produced under the cipher derived from the configured
secret: if its expiry is at or before the current time, retrieve returns
the Expired result carrying the decrypted refresh token (and no access
token); if it is unexpired and its additional-data blob is vault-shaped,
retrieve returns the dictionary with both tokens decrypted; and for a
(tenant, integration type) pair with no stored row, retrieve returns the
NotFound result (Python None). -/
theorem C8_retrieve_contract (key : List Nat) (fk : FernetKey)
    (db : VaultDb) (now : Int) (t : String) (ty : IntegrationType)
    (row : IntegrationKey) (a r : String)
    (hk : createCipher key = Except.ok fk)
    (hfind : getByTenantAndType db t ty = some row)
    (ha : row.access_token = fernetEncrypt fk a)
    (hr : row.refresh_token = fernetEncrypt fk r) :
    (row.expires_at ≤ now →
      getIntegrationTokens key db now t ty
        = RetrieveOutcome.expired r row.expires_at) ∧
    (now < row.expires_at → noTokenKeys row.additional_data = true →
      ∃ res, getIntegrationTokens key db now t ty
          = RetrieveOutcome.tokens res ∧
        res.access_token = a ∧ res.refresh_token = r ∧
        res.expires_at = row.expires_at) ∧
    (∀ t2 ty2, getByTenantAndType db t2 ty2 = none →
      getIntegrationTokens key db now t2 ty2
        = RetrieveOutcome.noCredential) := by
  have hda : decryptToken key row.access_token = Except.ok a := by
    rw [ha]
    simp [decryptToken, hk, fernetDecrypt, fernetEncrypt]
  have hdr : decryptToken key row.refresh_token = Except.ok r := by
    rw [hr]
    simp [decryptToken, hk, fernetDecrypt, fernetEncrypt]
  refine ⟨?_, ?_, ?_⟩
  · intro hexp
    simp [getIntegrationTokens, hfind, hexp, hdr]
  · intro hlt hkeys
    have hnotle : ¬ row.expires_at ≤ now := not_le.mpr hlt
    cases hadd : row.additional_data with
    | none =>
        refine ⟨{ access_token := a, refresh_token := r
                , expires_at := row.expires_at, org_id := row.org_id
                , tenant_id_external := row.tenant_id_external
                , extra := [] }, ?_, rfl, rfl, rfl⟩
        simp [getIntegrationTokens, hfind, hnotle, hda, hdr, hadd]
    | some extras =>
        have hall : extras.all
            (fun kv => kv.1 ≠ "access_token" ∧ kv.1 ≠ "refresh_token") = true := by
          have := hkeys
          rw [hadd] at this
          simpa [noTokenKeys] using this
        have hp := foldl_applyExtraEntry_preserves_tokens extras
          { access_token := a, refresh_token := r
          , expires_at := row.expires_at, org_id := row.org_id
          , tenant_id_external := row.tenant_id_external
          , extra := [] } hall
        refine ⟨_, ?_, hp.1, hp.2.1, hp.2.2⟩
        simp [getIntegrationTokens, hfind, hnotle, hda, hdr, hadd]
  · intro t2 ty2 hnone
    simp [getIntegrationTokens, hnone]

/-- Configured-secret fixture for the vault scenarios (length not 32, so
the derived key is the digest form). -/
def fixVKey : List Nat := [1, 2, 3]

/-- The Fernet key derived from the secret fixture. -/
def fixFk : FernetKey := FernetKey.hashed [1, 2, 3]

/-- A stored credential row for tenant t1 and Zoho that expires at 10,
encrypted under the derived key. -/
def fixRow : IntegrationKey :=
  { id := 0, tenant_id := "t1", integration_type := IntegrationType.zoho
  , access_token := fernetEncrypt fixFk "A"
  , refresh_token := fernetEncrypt fixFk "R"
  , expires_at := 10, org_id := none, tenant_id_external := none
  , additional_data := none, updated_at := none }

/-- Vault table fixture holding only that row. -/
def fixVaultDb : VaultDb := { rows := [fixRow], nextId := 1 }

/-- Closed instance of C8: at time 10 the credential is expired and
retrieve yields the decrypted refresh token R; at time 5 it is live and
retrieve yields both decrypted tokens; an absent pair yields NotFound. -/
theorem C8_retrieve_contract_witness :
    createCipher fixVKey = Except.ok fixFk ∧
    getByTenantAndType fixVaultDb "t1" IntegrationType.zoho = some fixRow ∧
    fixRow.expires_at ≤ (10 : Int) ∧
    getIntegrationTokens fixVKey fixVaultDb 10 "t1" IntegrationType.zoho
      = RetrieveOutcome.expired "R" fixRow.expires_at ∧
    (∃ res, getIntegrationTokens fixVKey fixVaultDb 5 "t1" IntegrationType.zoho
        = RetrieveOutcome.tokens res ∧
      res.access_token = "A" ∧ res.refresh_token = "R" ∧
      res.expires_at = fixRow.expires_at) ∧
    getIntegrationTokens fixVKey fixVaultDb 10 "t2" IntegrationType.zoho
      = RetrieveOutcome.noCredential :=
  ⟨rfl, rfl, by decide,
   (C8_retrieve_contract fixVKey fixFk fixVaultDb 10 "t1"
     IntegrationType.zoho fixRow "A" "R" rfl rfl rfl rfl).1 (by decide),
   (C8_retrieve_contract fixVKey fixFk fixVaultDb 5 "t1"
     IntegrationType.zoho fixRow "A" "R" rfl rfl rfl rfl).2.1 (by decide) rfl,
   (C8_retrieve_contract fixVKey fixFk fixVaultDb 10 "t1"
     IntegrationType.zoho fixRow "A" "R" rfl rfl rfl rfl).2.2 "t2"
     IntegrationType.zoho rfl⟩
